import Mathlib

/-!
# Verification development for the `cargos` uniform-document generator

Shallow embedding of the data pipeline of the repository (files
`constants.py`, `models.py`, `services.py`), against which the claims of the
specification are settled.

Embedding conventions:
* a Python `str` is a `List Char` (`PyStr`); `str.upper` / `str.lower` /
  `str.strip` are modelled for the ASCII range (`Char.toUpper`,
  `Char.toLower`, and stripping of the six ASCII whitespace characters),
  which covers every string the pipeline compares or normalizes;
* a spreadsheet cell is `Option PyStr`, with `none` standing for a pandas
  `NaN` (the value of an empty cell); `pd.notna` is `Option.isSome`;
* Python `float` prices and amounts are modelled as exact rationals `ℚ`;
  the pipeline only adds and compares prices, so no rounding semantics are
  needed;
* `float(...)` parsing of quantity cells is modelled for plain decimal
  literals (optional sign, digits, optional fraction part); exponent,
  infinity and underscore forms are treated as unparseable, matching the
  `except (ValueError, TypeError)` skip path for every input that could not
  yield a positive integer quantity;
* file-system effects (directory creation, document writes) are recorded in
  an explicit trace of `FSOp` values, and the injected renderer is an
  abstract `PyStr → DocCtx → Bool` returning whether rendering succeeded
  (the source catches any rendering exception and continues);
* the system clock (`datetime.now()`) is an explicit `SysDate` argument.
-/

/-! ## Python string primitives -/

/-- Python `str` modelled as a list of characters. -/
abbrev PyStr := List Char

/-- The six ASCII whitespace characters stripped by Python's `str.strip()`. -/
def pyIsSpace (c : Char) : Bool :=
  c.toNat = 32 || c.toNat = 9 || c.toNat = 10 || c.toNat = 13 || c.toNat = 11 || c.toNat = 12

/-- Python `str.upper()` (ASCII range). -/
def pyUpper (s : PyStr) : PyStr := s.map Char.toUpper

/-- Python `str.lower()` (ASCII range). -/
def pyLower (s : PyStr) : PyStr := s.map Char.toLower

/-- Python `str.strip()`: drop leading and trailing whitespace. -/
def pyStrip (s : PyStr) : PyStr :=
  ((s.dropWhile pyIsSpace).reverse.dropWhile pyIsSpace).reverse

/-- The composite `s.upper().strip()` used throughout `models.py` to
normalize lookup keys. -/
def pyNormUp (s : PyStr) : PyStr := pyStrip (pyUpper s)

/-- Python's `needle in hay` substring test. -/
def containsSub (hay needle : PyStr) : Bool :=
  (List.range (hay.length + 1)).any (fun i => needle.isPrefixOf (hay.drop i))

/-- Helper for `pyReplace`, structurally recursive on a fuel that bounds the
remaining string length (each step consumes at least one character, so the
fuel never runs out when it starts at the string length). -/
def pyReplaceAux (old new : PyStr) : Nat → PyStr → PyStr
  | 0, s => s
  | _ + 1, [] => []
  | fuel + 1, c :: rest =>
    if old ≠ [] ∧ old.isPrefixOf (c :: rest) then
      new ++ pyReplaceAux old new fuel ((c :: rest).drop old.length)
    else
      c :: pyReplaceAux old new fuel rest

/-- Python `s.replace(old, new)`: replace every non-overlapping occurrence,
scanning left to right.  (For the empty pattern, which the source never
uses, this is the identity rather than Python's insert-everywhere.) -/
def pyReplace (old new s : PyStr) : PyStr := pyReplaceAux old new s.length s

/-- Python `str.isalnum()` (ASCII range). -/
def pyIsAlnum (c : Char) : Bool := c.isAlpha || c.isDigit

/-- Decimal digit-string value; `none` when empty or not all digits. -/
def digitsToNat (l : PyStr) : Option Nat :=
  if l ≠ [] ∧ l.all Char.isDigit then
    some (l.foldl (fun acc c => acc * 10 + (c.toNat - 48)) 0)
  else none

/-- Value of a digit list (used for integer and fraction parts, where an
empty part contributes 0). -/
def digitsVal (l : PyStr) : Nat :=
  l.foldl (fun acc c => acc * 10 + (c.toNat - 48)) 0

/-- An unreduced decimal value `num / 10 ^ shift`, the result of parsing a
decimal literal (kept away from `ℚ` so that quantity parsing evaluates in
the kernel). -/
structure PyDec where
  num : Int
  shift : Nat
deriving DecidableEq

/-- Python `float(s)` for plain decimal literals (see module comment). -/
def pyFloat (s : PyStr) : Option PyDec :=
  let signBody : Int × PyStr :=
    match s with
    | '+' :: t => (1, t)
    | '-' :: t => (-1, t)
    | _ => (1, s)
  let sgn := signBody.1
  let body := signBody.2
  if body.contains '.' then
    let ip := body.takeWhile (fun c => c ≠ '.')
    let fp := (body.dropWhile (fun c => c ≠ '.')).tail
    if ip.all Char.isDigit ∧ fp.all Char.isDigit ∧ (ip ≠ [] ∨ fp ≠ []) then
      some ⟨sgn * ((digitsVal ip * 10 ^ fp.length + digitsVal fp : Nat) : Int), fp.length⟩
    else none
  else
    match digitsToNat body with
    | some n => some ⟨sgn * (n : Int), 0⟩
    | none => none

/-- Python `int(...)` on a parsed decimal: truncation toward zero
(`Int.tdiv` with the positive denominator `10 ^ shift`). -/
def pyInt (d : PyDec) : Int := Int.tdiv d.num ((10 ^ d.shift : Nat) : Int)

/-- Python `f-string` rendering of a natural number. -/
def natToStr (n : Nat) : PyStr := (Nat.repr n).data

/-- Python `f-string` `02d` padding. -/
def pad2 (n : Nat) : PyStr := if n < 10 then '0' :: natToStr n else natToStr n

/-! ## Data model (`models.py`) -/

/-- `models.py` `OccupationPrenda`: a garment type an occupation can be
assigned, with its nine price points (three size groups × three location
groups).  Prices are rationals standing for the source's floats. -/
structure OccupationPrenda where
  prenda_type : PyStr
  has_sizes : Bool := true
  is_required : Bool := false
  default_quantity : Int := 0
  price_sml_other : ℚ := 0
  price_xl_other : ℚ := 0
  price_xxl_other : ℚ := 0
  price_sml_tarapoto : ℚ := 0
  price_xl_tarapoto : ℚ := 0
  price_xxl_tarapoto : ℚ := 0
  price_sml_san_isidro : ℚ := 0
  price_xl_san_isidro : ℚ := 0
  price_xxl_san_isidro : ℚ := 0
deriving DecidableEq

/-- `models.py` `Occupation`. -/
structure Occupation where
  name : PyStr
  display_name : PyStr
  synonyms : List PyStr
  prendas : List OccupationPrenda
  is_active : Bool := true
  description : PyStr := []
deriving DecidableEq

/-- `models.py` `UnifiedConfig`. -/
structure UnifiedConfig where
  occupations : List Occupation
  default_occupation : PyStr := ("MOZO".data)
  default_local_group : PyStr := ("OTHER".data)
deriving DecidableEq

/-- `models.py` `UnifiedConfig._determine_local_group` (an instance method
that does not read `self`): bucket a raw location string into one of the
three pricing location groups by exact or substring match. -/
def determine_local_group (locale : PyStr) : PyStr :=
  let local_upper := pyNormUp locale
  if local_upper = ("TARAPOTO".data) || containsSub local_upper ("TARAPOTO".data) then
    ("tarapoto".data)
  else if local_upper = ("SAN ISIDRO".data) || local_upper = ("SAN_ISIDRO".data) ||
      containsSub local_upper ("SAN ISIDRO".data) || containsSub local_upper ("SAN_ISIDRO".data) then
    ("san_isidro".data)
  else
    ("other".data)

/-- The matching test of `UnifiedConfig.get_occupation` for one occupation:
case-insensitive equality of the (upper-cased, input-trimmed) key with the
canonical name or any synonym. -/
def occ_matches (occupation : Occupation) (name_upper : PyStr) : Bool :=
  pyUpper occupation.name == name_upper ||
    (occupation.synonyms.map pyUpper).contains name_upper

/-- `models.py` `UnifiedConfig.get_occupation`: first occupation whose name
or synonym list matches the normalized key. -/
def UnifiedConfig.get_occupation (cfg : UnifiedConfig) (name : PyStr) : Option Occupation :=
  cfg.occupations.find? (fun occupation => occ_matches occupation (pyNormUp name))

/-- The size-group bucketing inside `UnifiedConfig.get_price` (input already
normalized): S, M, L and SML collapse to `sml`, XL and XXL keep their own
group, anything else falls back to `sml`. -/
def size_group (size : PyStr) : PyStr :=
  if size = ("S".data) ∨ size = ("M".data) ∨ size = ("L".data) ∨ size = ("SML".data) then
    ("sml".data)
  else if size = ("XL".data) then ("xl".data)
  else if size = ("XXL".data) then ("xxl".data)
  else ("sml".data)

/-- The `getattr(prenda, f"price_GROUP_LOCAL", 0.0)` dynamic attribute
lookup of `UnifiedConfig.get_price`, as a total table access. -/
def price_attr (p : OccupationPrenda) (sg lg : PyStr) : ℚ :=
  if sg = ("sml".data) ∧ lg = ("other".data) then p.price_sml_other
  else if sg = ("xl".data) ∧ lg = ("other".data) then p.price_xl_other
  else if sg = ("xxl".data) ∧ lg = ("other".data) then p.price_xxl_other
  else if sg = ("sml".data) ∧ lg = ("tarapoto".data) then p.price_sml_tarapoto
  else if sg = ("xl".data) ∧ lg = ("tarapoto".data) then p.price_xl_tarapoto
  else if sg = ("xxl".data) ∧ lg = ("tarapoto".data) then p.price_xxl_tarapoto
  else if sg = ("sml".data) ∧ lg = ("san_isidro".data) then p.price_sml_san_isidro
  else if sg = ("xl".data) ∧ lg = ("san_isidro".data) then p.price_xl_san_isidro
  else if sg = ("xxl".data) ∧ lg = ("san_isidro".data) then p.price_xxl_san_isidro
  else 0

/-- `models.py` `UnifiedConfig.get_price`: normalize all four inputs, resolve
the occupation, find its garment-pricing entry by case-insensitive type
match, and read the price point for (size group, location group); every
missing step yields 0.0. -/
def UnifiedConfig.get_price (cfg : UnifiedConfig) (prenda_type size cargo locale : PyStr) : ℚ :=
  let prenda_type' := pyNormUp prenda_type
  let size' := pyNormUp size
  let cargo' := pyNormUp cargo
  let local' := pyNormUp locale
  match cfg.get_occupation cargo' with
  | none => 0
  | some occupation =>
    match occupation.prendas.find? (fun prenda => pyUpper prenda.prenda_type == prenda_type') with
    | none => 0
    | some prenda => price_attr prenda (size_group size') (determine_local_group local')

/-! ## Spec-modelled pricing service

The module `unified_config_service.py` (class `UnifiedConfigService`) is not
under `src/`; only its callers in `services.py` are.  Its two operations used
by the generation path are modelled from the spec. -/

/-- Modelled from the spec: `UnifiedConfigService.normalize_occupation`
(missing module `unified_config_service.py`).  Per spec §4.3 and the design
notes, the raw label is resolved through the occupation catalog
(case-insensitive exact/synonym match) and an unresolved label silently
falls back to the catalog's default occupation; the result is the canonical
name in upper case (callers compare it with `cargo.upper()`). -/
def normalize_occupation (cfg : UnifiedConfig) (raw : PyStr) : PyStr :=
  match cfg.get_occupation raw with
  | some occupation => pyUpper occupation.name
  | none => cfg.default_occupation

/-- `services.py` `Prenda`-shaped dict built by `_build_prendas_list`:
display string, integer quantity, and the key used for the pricing lookup. -/
structure Prenda where
  string : PyStr
  qty : Int
  prenda_type : PyStr
deriving DecidableEq

/-- Modelled from the spec: `UnifiedConfigService.calculate_total_price`
(missing module `unified_config_service.py`).  Per spec §4.4, "Total amount
= sum over all quantity>0 garments of price(type, person.size,
resolved_occupation, metadata.location) — quantity itself does not multiply
the price" (see also `constants.py` `IGNORE_QUANTITY_IN_PRICING = True`).
The entries of `prendas` are exactly the quantity>0 garments, and the
person's size — which the service recovers from the entries it is given —
is passed explicitly as `talla`. -/
def calculate_total_price (cfg : UnifiedConfig) (prendas : List Prenda)
    (cargo locale talla : PyStr) : ℚ :=
  (prendas.map (fun p => cfg.get_price p.prenda_type talla cargo locale)).sum

/-! ## Rows and row lookups (`services.py`) -/

/-- A pandas cell: `none` is `NaN`. -/
abbrev Cell := Option PyStr

/-- One data row: the ordered list of (column label, cell) pairs. -/
abbrev Row := List (PyStr × Cell)

/-- The ordered keys of the dict comprehension
`lowered = dict((str(k).lower(), k) for k in row.index)`: lower-cased labels in
order of first appearance, without duplicates. -/
def loweredKeys (row : Row) : List PyStr :=
  (row.map (fun kv => pyLower kv.1)).foldl
    (fun acc k => if acc.contains k then acc else acc ++ [k]) []

/-- The value `lowered[lk]` of that dict: the LAST original label whose
lower-casing is `lk` (later duplicates overwrite), `[]` if absent. -/
def loweredVal (row : Row) (lk : PyStr) : PyStr :=
  match row.reverse.find? (fun kv => pyLower kv.1 == lk) with
  | some kv => kv.1
  | none => []

/-- `row[label]` in pandas: the first column carrying this exact label (with
duplicate labels the source takes `.iloc[0]` of the resulting Series). -/
def rowGet (row : Row) (label : PyStr) : Cell :=
  match row.find? (fun kv => kv.1 == label) with
  | some kv => kv.2
  | none => none

/-- The guard-and-return step of `_find_in_row`:
`if pd.notna(val) and str(val).strip(): return str(val).strip()`. -/
def cellStr (c : Cell) : Option PyStr :=
  match c with
  | some v => if pyStrip v ≠ [] then some (pyStrip v) else none
  | none => none

/-- `services.py` `FileGenerationService._find_in_row`: exact lower-cased
label matches first (in key order), then substring matches (in column
order), returning the first non-empty stripped value. -/
def find_in_row (row : Row) (keys : List PyStr) : Option PyStr :=
  let exact := keys.findSome? (fun needle =>
    if (loweredKeys row).contains (pyLower needle) then
      cellStr (rowGet row (loweredVal row (pyLower needle)))
    else none)
  match exact with
  | some v => some v
  | none =>
    (loweredKeys row).findSome? (fun key =>
      keys.findSome? (fun needle =>
        if containsSub key (pyLower needle) then
          cellStr (rowGet row (loweredVal row key))
        else none))

/-- `services.py` `FileGenerationService._extract_name`: a combined
nombre+apellido column, else first/last name columns joined by a space. -/
def extract_name (row : Row) : PyStr :=
  let combined : Cell :=
    match (loweredKeys row).find? (fun key =>
        containsSub key ("nombre".data) && containsSub key ("apellido".data)) with
    | some key => rowGet row (loweredVal row key)
    | none => none
  match cellStr combined with
  | some v => v
  | none =>
    let first : Cell :=
      match (loweredKeys row).find? (fun key =>
          containsSub key ("nombre".data) || containsSub key ("name".data)) with
      | some key => rowGet row (loweredVal row key)
      | none => none
    let last : Cell :=
      match (loweredKeys row).find? (fun key =>
          containsSub key ("apellido".data) || containsSub key ("last".data)) with
      | some key => rowGet row (loweredVal row key)
      | none => none
    let name := match first with | some f => pyStrip f | none => []
    match last with
    | some l => pyStrip (name ++ (" ".data) ++ pyStrip l)
    | none => name

/-- `services.py` `FileGenerationService._extract_common_person_data`. -/
structure PersonData where
  cargo : PyStr
  nombre : PyStr
  identificacion : PyStr
deriving DecidableEq

/-- `_extract_common_person_data`: cargo, display name (with
`_extract_name` fallback) and DNI, defaulting to the empty string. -/
def extract_common_person_data (row : Row) : PersonData :=
  { cargo := (find_in_row row [("cargo".data)]).getD []
  , nombre := (find_in_row row [("nombre".data)]).getD (extract_name row)
  , identificacion := (find_in_row row [("dni".data)]).getD [] }

/-- `services.py` `FileGenerationService._extract_talla_superior`:
`str(talla).strip().upper()` of the first talla-like column. -/
def extract_talla_superior (row : Row) : PyStr :=
  pyUpper (pyStrip ((find_in_row row
    [("talla prenda superior".data), ("talla".data), ("size".data), ("talla_superior".data)]).getD []))

/-! ## Garment list assembly (`services.py` `_build_prendas_list`) -/

/-- `constants.py` `UNIFORM_COLUMN_NAMES`. -/
def UNIFORM_COLUMN_NAMES : List PyStr :=
  [("camisa".data), ("blusa".data), ("mandilon".data), ("andarin".data),
   ("deliverypolo".data), ("deliverycasaca".data), ("deliverygorro".data),
   ("packergorra".data), ("packerpolo".data)]

/-- The fixed one-size garment display names of `_build_prendas_list`. -/
def ONE_SIZE_DISPLAY : List PyStr :=
  [("ANDARIN".data), ("MANDILON".data), ("GORRA".data)]

/-- The raw quantity value lookup of `_build_prendas_list`: the column named
exactly `prenda_name` if present (raw cell, first occurrence), else the
`_find_in_row` fallback. -/
def qtyRaw (row : Row) (prenda_name : PyStr) : Option PyStr :=
  if row.any (fun kv => kv.1 == prenda_name) then rowGet row prenda_name
  else find_in_row row [prenda_name]

/-- The quantity guard and parse of `_build_prendas_list`:
skip `None`/`NaN`/empty/`'nan'`/`'NaN'`/`'0'` values, then
`int(float(str(v).strip()))`; a parse failure is skipped
(`except (ValueError, TypeError): continue`). -/
def qtyParsed (row : Row) (prenda_name : PyStr) : Option Int :=
  match qtyRaw row prenda_name with
  | none => none
  | some v =>
    let sv := pyStrip v
    if sv = [] ∨ sv = ("nan".data) ∨ sv = ("NaN".data) ∨ sv = ("0".data) then none
    else
      match pyFloat sv with
      | some d => some (pyInt d)
      | none => none

/-- Whether a garment key contributes an entry: a parsed quantity > 0. -/
def qty_positive (row : Row) (prenda_name : PyStr) : Bool :=
  ((qtyParsed row prenda_name).map (fun q => decide (0 < q))).getD false

/-- The display name of `_build_prendas_list`: role prefixes PACKER and
DELIVERY are removed (and the result stripped) for display only. -/
def display_name_of (clean_name : PyStr) : PyStr :=
  if ("PACKER".data).isPrefixOf clean_name then
    pyStrip (pyReplace ("PACKER".data) [] clean_name)
  else if ("DELIVERY".data).isPrefixOf clean_name then
    pyStrip (pyReplace ("DELIVERY".data) [] clean_name)
  else clean_name

/-- The entry `_build_prendas_list` appends for one garment key (if its
quantity is positive): the display string carries the prefix-stripped name
and a size suffix unless the garment is one-size, while `prenda_type` keeps
the full upper-cased key ("Keep original name for pricing"). -/
def prenda_entry_core (o : Option Int) (talla_superior prenda_name : PyStr) : Option Prenda :=
  o.bind (fun qty =>
    if 0 < qty then
      let clean_name := pyUpper prenda_name
      let display_name := display_name_of clean_name
      let prenda_string :=
        if ONE_SIZE_DISPLAY.contains display_name then display_name
        else display_name ++ (" TALLA ".data) ++ talla_superior
      some { string := prenda_string, qty := qty, prenda_type := clean_name }
    else none)

/-- One step of the `_build_prendas_list` loop, applied to the parsed
quantity of the column. -/
def prenda_entry (row : Row) (talla_superior prenda_name : PyStr) : Option Prenda :=
  prenda_entry_core (qtyParsed row prenda_name) talla_superior prenda_name

/-- `services.py` `FileGenerationService._build_prendas_list` as a filter-map
over an arbitrary key list (the loop body is `prenda_entry`). -/
def build_prendas_over (keys : List PyStr) (row : Row) (talla_superior : PyStr) : List Prenda :=
  keys.filterMap (prenda_entry row talla_superior)

/-- `services.py` `FileGenerationService._build_prendas_list`. -/
def build_prendas_list (row : Row) (talla_superior : PyStr) : List Prenda :=
  build_prendas_over UNIFORM_COLUMN_NAMES row talla_superior

/-! ## Amount computation (`services.py` `_get_monto_for_person`) -/

/-- `models.py` `WorksheetMetadata`. -/
structure WorksheetMetadata where
  sheet_name : PyStr
  fecha_solicitud : PyStr := []
  tienda : PyStr := []
  administrador : PyStr := []
deriving DecidableEq

/-- The cargo `_get_monto_for_person` prices with, before normalization:
the row's cargo column, defaulting to MOZO when absent or empty. -/
def pricing_cargo (row : Row) : PyStr :=
  let cargo := (find_in_row row [("cargo".data)]).getD []
  if cargo = [] then ("MOZO".data) else cargo

/-- The location `_get_monto_for_person` prices with:
`metadata.tienda or "OTHER"`. -/
def pricing_local (metadata : WorksheetMetadata) : PyStr :=
  if metadata.tienda = [] then ("OTHER".data) else metadata.tienda

/-- `services.py` `FileGenerationService._get_monto_for_person`: normalize
the cargo, build the quantity>0 garment list from the uniform row (falling
back to the main row), and total it through the pricing service.  The
logging-only statements of the source are omitted; the catch-all
`except ... return 0.0` is unreachable in this total embedding. -/
def get_monto_for_person (cfg : UnifiedConfig) (row : Row)
    (metadata : WorksheetMetadata) (uniform_row : Option Row) : ℚ :=
  let normalized_cargo := normalize_occupation cfg (pricing_cargo row)
  let locale := pricing_local metadata
  let talla_superior := extract_talla_superior row
  let prendas := build_prendas_list (uniform_row.getD row) talla_superior
  calculate_total_price cfg prendas normalized_cargo locale talla_superior

/-! ## Worksheet parsing (`services.py` `ExcelService._parse_worksheet`) -/

/-- A raw worksheet grid as pandas reads it (`header=None`): rows of cells,
conceptually padded with `NaN` to the frame width. -/
abbrev Grid := List (List Cell)

/-- The pandas frame width: the maximum row length. -/
def ncols (g : Grid) : Nat := g.foldr (fun r acc => max r.length acc) 0

/-- `sheet_data.iloc[r, c]`, with `none` for `NaN` or out-of-range padding. -/
def cellAt (g : Grid) (r c : Nat) : Cell :=
  ((g.get? r).bind (fun row => row.get? c)).join

/-- `frame.iloc[:, a:b]` on one row of a frame of width `w`: pad to the frame
width, then take columns `a ≤ i < min b w`. -/
def rowSlice (w a b : Nat) (r : List Cell) : List Cell :=
  ((r ++ List.replicate (w - r.length) none).drop a).take (min b w - a)

/-- `str(label)` of a header cell: a `NaN` header renders as "nan". -/
def labelOf (c : Cell) : PyStr := c.getD ("nan".data)

/-- `dropna(how='all')`: drop the rows whose every cell is `NaN`. -/
def dropEmptyRows (rows : List (List Cell)) : List (List Cell) :=
  rows.filter (fun r => r.any Option.isSome)

/-- The main data region (columns B..I from row 7 on, 0-indexed 1..8 from
row 6): the first row is consumed as headers below. -/
def main_region (g : Grid) : List (List Cell) :=
  (g.drop 6).map (rowSlice (ncols g) 1 9)

/-- The cleaned person table: header row consumed as labels, fully-empty
rows dropped, each remaining row paired with its column labels. -/
def main_rows (g : Grid) : List Row :=
  match main_region g with
  | [] => []
  | headerRow :: dataRows =>
    let labels := headerRow.map labelOf
    (dropEmptyRows dataRows).map (fun r => labels.zip r)

/-- The cleaned garment table (columns J..R from row 8 on, 0-indexed 9..17
from row 7), labelled with `UNIFORM_COLUMN_NAMES`, before alignment with
the person table. -/
def uniform_cleaned (g : Grid) : List Row :=
  (dropEmptyRows ((g.drop 7).map (rowSlice (ncols g) 9 18))).map
    (fun r => UNIFORM_COLUMN_NAMES.zip r)

/-- `models.py` `WorksheetParsingResult`. -/
structure WorksheetParsingResult where
  metadata : WorksheetMetadata
  data : Option (List Row) := none
  uniform_data : Option (List Row) := none
  total_lines : Nat := 0
  people_parsed : Nat := 0
  errors : List PyStr := []
  warnings : List PyStr := []
deriving DecidableEq

/-- `services.py` `ExcelService._parse_worksheet`.  The embedding is total,
so the defensive `except` blocks of the source (metadata extraction, data
extraction, whole-sheet) are unreachable and omitted; logging is omitted. -/
def parse_worksheet (sheet_name : PyStr) (g : Grid) : WorksheetParsingResult :=
  let metadata : WorksheetMetadata :=
    { sheet_name := sheet_name
      fecha_solicitud := (cellAt g 2 2).getD []
      tienda := (cellAt g 3 2).getD []
      administrador := (cellAt g 4 2).getD [] }
  let metaWarnings : List PyStr :=
    (if metadata.fecha_solicitud = [] then [("Missing fecha_solicitud (C3)".data)] else []) ++
    (if metadata.tienda = [] then [("Missing tienda (C4)".data)] else []) ++
    (if metadata.administrador = [] then [("Missing administrador (C5)".data)] else [])
  if 6 < g.length then
    if 0 < (main_region g).length then
      let mains := main_rows g
      let labels : List PyStr :=
        match main_region g with
        | [] => []
        | headerRow :: _ => headerRow.map labelOf
      let dniChecks : List PyStr × List PyStr :=
        match labels.find? (fun col => containsSub (pyLower col) ("dni".data)) with
        | some dni_col =>
          let missing := (mains.filter (fun row => (rowGet row dni_col).isNone)).length
          (if 0 < missing then
            [natToStr missing ++ (" rows with data are missing DNI".data)] else [], [])
        | none => ([], [("No DNI column found - cannot validate DNI completeness".data)])
      let uniformRes : Option (List Row) × List PyStr :=
        if 7 < g.length ∧ 17 < ncols g then
          let ucols := min 18 (ncols g) - 9
          if ucols = UNIFORM_COLUMN_NAMES.length then
            let urows := uniform_cleaned g
            if mains.length ≤ urows.length then (some (urows.take mains.length), [])
            else
              (some urows,
               [("Uniform data has fewer rows (".data) ++ natToStr urows.length ++
                (") than main data (".data) ++ natToStr mains.length ++ (")".data)])
          else
            (none,
             [("Uniform data has ".data) ++ natToStr ucols ++ (" columns, expected ".data) ++
              natToStr UNIFORM_COLUMN_NAMES.length])
        else (none, [("Insufficient data for uniform columns (J-R)".data)])
      { metadata := metadata
        data := some mains
        uniform_data := uniformRes.1
        people_parsed := mains.length
        total_lines := g.length
        errors := dniChecks.1
        warnings := dniChecks.2 ++ uniformRes.2 ++ metaWarnings }
    else
      { metadata := metadata
        warnings := [("No data rows found after headers".data)] ++ metaWarnings }
  else
    { metadata := metadata
      warnings := [("Sheet has insufficient rows (less than 7)".data)] ++ metaWarnings }

/-- `models.py` `ExcelData` (the derived counters of the source's
`__post_init__` are the functions below). -/
structure ExcelData where
  file_path : PyStr := []
  worksheets : List WorksheetParsingResult := []
deriving DecidableEq

/-- `ExcelData.successful_worksheets`: worksheets whose data is not None. -/
def ExcelData.successful_worksheets (e : ExcelData) : Nat :=
  (e.worksheets.filter (fun w => w.data.isSome)).length

/-- `ExcelData.is_loaded`. -/
def ExcelData.is_loaded (e : ExcelData) : Bool :=
  decide (0 < e.worksheets.length) && decide (0 < e.successful_worksheets)

/-! ## Document contexts (`services.py` context builders) -/

/-- The system clock (`datetime.now()`) as explicit data. -/
structure SysDate where
  day : Nat
  month : Nat
  year : Nat
deriving DecidableEq

/-- `constants.py` `SPANISH_MONTHS` with the `.get(month, "")` default. -/
def SPANISH_MONTHS (m : Nat) : PyStr :=
  match m with
  | 1 => ("enero".data)
  | 2 => ("febrero".data)
  | 3 => ("marzo".data)
  | 4 => ("abril".data)
  | 5 => ("mayo".data)
  | 6 => ("junio".data)
  | 7 => ("julio".data)
  | 8 => ("agosto".data)
  | 9 => ("septiembre".data)
  | 10 => ("octubre".data)
  | 11 => ("noviembre".data)
  | 12 => ("diciembre".data)
  | _ => []

/-- `services.py` `FileGenerationService._get_system_date`:
(dia, mes_string, anho, fecha_string). -/
def get_system_date (d : SysDate) : PyStr × PyStr × PyStr × PyStr :=
  let dia := pad2 d.day
  let mes_string := SPANISH_MONTHS d.month
  let anho := natToStr d.year
  (dia, mes_string, anho,
   dia ++ (" de ".data) ++ mes_string ++ (" de ".data) ++ anho)

/-- The AUTORIZACION docxtpl context (dict keys as fields; `locale` is the
source's "local" key; `monto` is kept as the unformatted amount). -/
structure AutorizacionCtx where
  dia : PyStr
  mes : PyStr
  anho : PyStr
  fecha : PyStr
  locale : PyStr
  cargo : PyStr
  nombre : PyStr
  identificacion : PyStr
  monto : ℚ
deriving DecidableEq

/-- The CARGO docxtpl context.  Note: it has no "cargo" key. -/
structure CargoCtx where
  dia : PyStr
  mes_string : PyStr
  anho : PyStr
  fecha : PyStr
  nombre : PyStr
  prendas : List Prenda
  monto : ℚ
deriving DecidableEq

/-- `services.py` `FileGenerationService._build_autorizacion_context`.
Total embedding: the `except ... return None` path is unreachable. -/
def build_autorizacion_context (cfg : UnifiedConfig) (today : SysDate) (row : Row)
    (metadata : WorksheetMetadata) (uniform_row : Option Row) : AutorizacionCtx :=
  let dia := pad2 today.day
  let mes := pad2 today.month
  let anho := natToStr today.year
  let person := extract_common_person_data row
  let fecha_template :=
    if dia ≠ [] ∧ mes ≠ [] ∧ anho ≠ [] then
      dia ++ (" / ".data) ++ mes ++ (" / ".data) ++ anho
    else []
  { dia := dia, mes := mes, anho := anho, fecha := fecha_template
    locale := metadata.tienda
    cargo := person.cargo
    nombre := person.nombre
    identificacion := person.identificacion
    monto := get_monto_for_person cfg row metadata uniform_row }

/-- `services.py` `FileGenerationService._build_cargo_context`.
Total embedding: the `except ... return None` path is unreachable. -/
def build_cargo_context (cfg : UnifiedConfig) (today : SysDate) (row : Row)
    (metadata : WorksheetMetadata) (uniform_row : Option Row) : CargoCtx :=
  let sd := get_system_date today
  let person := extract_common_person_data row
  let talla_superior := extract_talla_superior row
  let data_row := uniform_row.getD row
  { dia := sd.1, mes_string := sd.2.1, anho := sd.2.2.1, fecha := sd.2.2.2
    nombre := person.nombre
    prendas := build_prendas_list data_row talla_superior
    monto := get_monto_for_person cfg row metadata uniform_row }

/-- A rendered document context, tagged by template type (the per-person
dict maps "AUTORIZACION"/"CARGO" to these). -/
inductive DocCtx where
  | aut (c : AutorizacionCtx)
  | car (c : CargoCtx)
deriving DecidableEq

/-- `ctx.get("nombre", "")` of `_file_stub`. -/
def ctx_nombre : DocCtx → PyStr
  | .aut c => c.nombre
  | .car c => c.nombre

/-- `ctx.get("cargo", "")` of `_file_stub`: the CARGO context carries no
"cargo" key, so it yields the empty string there. -/
def ctx_cargo : DocCtx → PyStr
  | .aut c => c.cargo
  | .car _ => []

/-- The per-person context dict of `_build_person_contexts` (keys in
insertion order: AUTORIZACION, then CARGO). -/
structure PersonContexts where
  autorizacion : Option AutorizacionCtx := none
  cargo : Option CargoCtx := none
deriving DecidableEq

/-- Python truthiness of the context dict. -/
def PersonContexts.nonempty (pc : PersonContexts) : Bool :=
  pc.autorizacion.isSome || pc.cargo.isSome

/-- `models.py` `GenerationOptions`. -/
structure GenerationOptions where
  selected_locales : List PyStr
  combine_per_local : Bool := false
  cargo_enabled : Bool := true
  autorizacion_enabled : Bool := true
deriving DecidableEq

/-- `services.py` `FileGenerationService._has_valid_uniform_data`. -/
def has_valid_uniform_data (ws : WorksheetParsingResult) : Bool :=
  ws.uniform_data.isSome && decide (0 < (ws.data.getD []).length)

/-- `services.py` `FileGenerationService._get_uniform_row_for_person`, with
`row.name` as the positional index of the person in the cleaned person
table (the source resets both indices to 0..N whenever a garment table
exists, so the pandas row label is exactly this position). -/
def get_uniform_row_for_person (idx : Nat) (ws : WorksheetParsingResult) : Option Row :=
  if has_valid_uniform_data ws then
    let u := ws.uniform_data.getD []
    if idx < u.length then u.get? idx else none
  else none

/-- `services.py` `FileGenerationService._build_person_contexts`: one
context per enabled template kind (the builders are total, so the source's
falsiness checks on the built dicts always pass). -/
def build_person_contexts (cfg : UnifiedConfig) (today : SysDate)
    (options : GenerationOptions) (ws : WorksheetParsingResult)
    (idx : Nat) (row : Row) : PersonContexts :=
  let uniform_row := get_uniform_row_for_person idx ws
  { autorizacion :=
      if options.autorizacion_enabled then
        some (build_autorizacion_context cfg today row ws.metadata uniform_row)
      else none
    cargo :=
      if options.cargo_enabled then
        some (build_cargo_context cfg today row ws.metadata uniform_row)
      else none }

/-! ## Generation orchestration (`services.py` `FileGenerationService`) -/

/-- Python dict `setdefault(key, []).append(v)` on an insertion-ordered
association list. -/
def assocAppend {V : Type} (l : List (PyStr × List V)) (k : PyStr) (v : V) :
    List (PyStr × List V) :=
  match l with
  | [] => [(k, [v])]
  | (k', vs) :: t => if k' == k then (k', vs ++ [v]) :: t else (k', vs) :: assocAppend t k v

/-- `services.py` `FileGenerationService._group_data_by_locale`: keep the
sheets whose trimmed tienda is selected and which have person rows, and
collect each person's per-kind contexts under their tienda. -/
def group_data_by_locale (cfg : UnifiedConfig) (today : SysDate)
    (excel : ExcelData) (options : GenerationOptions) :
    List (PyStr × List PersonContexts) :=
  excel.worksheets.foldl (fun acc ws =>
    let tienda := pyStrip ws.metadata.tienda
    if tienda = [] || !(options.selected_locales.contains tienda) then acc
    else
      match ws.data with
      | none => acc
      | some rows =>
        if rows.length = 0 then acc
        else
          rows.enum.foldl (fun acc2 ir =>
            let pc := build_person_contexts cfg today options ws ir.1 ir.2
            if pc.nonempty then assocAppend acc2 tienda pc else acc2) acc) []

/-- `services.py` `FileGenerationService._extract_person_name`: the first
context value (dict order) with a truthy "nombre". -/
def extract_person_name (pc : PersonContexts) : PyStr :=
  (((pc.autorizacion.map (fun c => c.nombre)).toList ++
    (pc.cargo.map (fun c => c.nombre)).toList).find? (fun n => n ≠ [])).getD []

/-- `services.py` `FileGenerationService._sanitize_name`: keep only
alphanumerics, underscore, hyphen and space, strip, then replace spaces by
underscores. -/
def sanitize_name (s : PyStr) : PyStr :=
  (pyStrip (s.filter (fun c => pyIsAlnum c || c = '_' || c = '-' || c = ' '))).map
    (fun c => if c = ' ' then '_' else c)

/-- `services.py` `FileGenerationService._file_stub`: join the non-empty
stripped name and cargo of the context with an underscore, sanitized. -/
def file_stub (ctx : DocCtx) : PyStr :=
  sanitize_name (List.intercalate ("_".data)
    (([pyStrip (ctx_nombre ctx), pyStrip (ctx_cargo ctx)]).filter (fun p => p ≠ [])))

/-- One observable file-system effect. -/
inductive FSOp where
  | mkdir (path : List PyStr)
  | write (path : List PyStr)
deriving DecidableEq

/-- The injected document renderer: whether rendering the given context for
the given template type succeeds (the source catches any exception from
`docxtpl` and returns `None` for the path). -/
abbrev Renderer := PyStr → DocCtx → Bool

/-- `services.py` `FileGenerationService._generate_single_document`: the
output path is `person_folder / KIND_<file stub>.docx`; a failed render
yields no path (and hence no recorded write). -/
def generate_single_document (render : Renderer) (ctx : DocCtx)
    (person_folder : List PyStr) : Option (List PyStr) :=
  match ctx with
  | .aut c =>
    let docx_path := person_folder ++ [("AUTORIZACION_".data) ++ file_stub (.aut c) ++ (".docx".data)]
    if render ("AUTORIZACION".data) (.aut c) then some docx_path else none
  | .car c =>
    let docx_path := person_folder ++ [("CARGO_".data) ++ file_stub (.car c) ++ (".docx".data)]
    if render ("CARGO".data) (.car c) then some docx_path else none

/-- Accumulator of `_generate_documents`: file count, effect trace, and the
per-template produced documents (for combining). -/
structure GenState where
  files : Nat
  ops : List FSOp
  template_docs : List (PyStr × List (List PyStr))
deriving DecidableEq

/-- The body of the person loop of `_generate_documents`: skip a nameless
person, create the person folder, then render each context in dict order. -/
def process_person (render : Renderer) (tienda_folder : List PyStr)
    (st : GenState) (pc : PersonContexts) : GenState :=
  let person_name := extract_person_name pc
  if person_name = [] then st
  else
    let person_folder := tienda_folder ++ [sanitize_name person_name]
    let st1 : GenState := { st with ops := st.ops ++ [FSOp.mkdir person_folder] }
    let st2 : GenState :=
      match pc.autorizacion with
      | some c =>
        match generate_single_document render (.aut c) person_folder with
        | some p =>
          { files := st1.files + 1, ops := st1.ops ++ [FSOp.write p],
            template_docs := assocAppend st1.template_docs ("AUTORIZACION".data) p }
        | none => st1
      | none => st1
    match pc.cargo with
    | some c =>
      match generate_single_document render (.car c) person_folder with
      | some p =>
        { files := st2.files + 1, ops := st2.ops ++ [FSOp.write p],
          template_docs := assocAppend st2.template_docs ("CARGO".data) p }
      | none => st2
    | none => st2

/-- `services.py` `FileGenerationService._create_combined_documents` (the
inner `_create_combined_docx` catches all its own failures, so each
template type with at least one document contributes one combined file). -/
def create_combined_documents (tienda_folder : List PyStr) (tienda : PyStr)
    (template_docs : List (PyStr × List (List PyStr))) : Nat × List FSOp :=
  template_docs.foldl (fun acc td =>
    if td.2 ≠ [] then
      (acc.1 + 1,
       acc.2 ++ [FSOp.write (tienda_folder ++
         [td.1 ++ ("_COMBINED_".data) ++ sanitize_name tienda ++ (".docx".data)])])
    else acc) (0, [])

/-- The body of the locale loop of `_generate_documents`: create the tienda
folder, process its people, and optionally combine. -/
def generate_group_step (dest : PyStr) (render : Renderer) (options : GenerationOptions)
    (acc : Nat × List FSOp) (grp : PyStr × List PersonContexts) : Nat × List FSOp :=
  let tienda_folder := [dest, sanitize_name grp.1]
  let st0 : GenState := { files := acc.1, ops := acc.2 ++ [FSOp.mkdir tienda_folder],
                          template_docs := [] }
  let st := grp.2.foldl (process_person render tienda_folder) st0
  if options.combine_per_local then
    let cd := create_combined_documents tienda_folder grp.1 st.template_docs
    (st.files + cd.1, st.ops ++ cd.2)
  else (st.files, st.ops)

/-- `services.py` `FileGenerationService._generate_documents`. -/
def generate_documents (dest : PyStr) (groups : List (PyStr × List PersonContexts))
    (render : Renderer) (options : GenerationOptions) : Nat × List FSOp :=
  groups.foldl (generate_group_step dest render options) (0, [])

/-- `models.py` `GenerationResult`. -/
structure GenerationResult where
  success : Bool
  files_generated : Nat := 0
  errors : List PyStr := []
  message : PyStr := []
deriving DecidableEq

/-- The environment of one generation run.  `template_errors` is modelled
from the spec: `TemplateValidator.validate_autorizacion_template` is called
by `services.py` but is not defined in `src/` (`validators.py` only defines
`validate_template_files`), so the "templates valid" precondition is an
opaque environment-supplied error list.  `docxtpl_available` models the
library probe of `_validate_generation_inputs`; `today` is the system
clock. -/
structure Env where
  template_errors : List PyStr := []
  dest_creatable : Bool := true
  docxtpl_available : Bool := true
  today : SysDate := ⟨1, 1, 2025⟩
deriving DecidableEq

/-- `services.py` `FileGenerationService._validate_generation_inputs`,
together with its file-system effect: the destination root is created
(`mkdir(parents=True, exist_ok=True)`) before the enabled-template check.
An uncreatable destination is modelled by the "Destination path is invalid"
failure branch (in the source an OSError from `mkdir` would surface through
the caller's catch-all with a different message but the same failed
status and no created directory). -/
def validate_generation_inputs (env : Env) (excel : ExcelData) (dest : PyStr)
    (options : Option GenerationOptions) : GenerationResult × List FSOp :=
  if !excel.is_loaded then
    ({ success := false, message := ("No Excel data loaded".data) }, [])
  else if env.template_errors ≠ [] then
    ({ success := false, message := ("Template validation failed".data),
       errors := env.template_errors }, [])
  else if !env.dest_creatable then
    ({ success := false, message := ("Destination path is invalid: ".data) ++ dest }, [])
  else
    let ops : List FSOp := [FSOp.mkdir [dest]]
    if (match options with
        | some o => !(o.autorizacion_enabled || o.cargo_enabled)
        | none => false) then
      ({ success := false, message := ("No templates selected for generation".data) }, ops)
    else if !env.docxtpl_available then
      ({ success := false,
         message := ("docxtpl not available; please install python-docx-template".data) }, ops)
    else ({ success := true }, ops)

/-- `services.py` `FileGenerationService._create_default_options`. -/
def create_default_options (excel : ExcelData) : GenerationOptions :=
  { selected_locales := excel.worksheets.filterMap
      (fun w => if w.metadata.tienda ≠ [] then some w.metadata.tienda else none)
    combine_per_local := false
    cargo_enabled := true
    autorizacion_enabled := true }

/-- `services.py` `FileGenerationService._get_enabled_templates`. -/
def get_enabled_templates (options : GenerationOptions) : List PyStr :=
  (if options.autorizacion_enabled then [("AUTORIZACION".data)] else []) ++
  (if options.cargo_enabled then [("CARGO".data)] else [])

/-- `services.py` `FileGenerationService.generate_files`: validate, default
the options, group by locale, generate, and report.  The catch-all `except`
of the source is unreachable in this total embedding. -/
def generate_files (env : Env) (cfg : UnifiedConfig) (excel : ExcelData)
    (dest : PyStr) (options : Option GenerationOptions) (render : Renderer) :
    GenerationResult × List FSOp :=
  let v := validate_generation_inputs env excel dest options
  if !v.1.success then
    ({ success := false, message := v.1.message, errors := v.1.errors }, v.2)
  else
    let opts := options.getD (create_default_options excel)
    let groups := group_data_by_locale cfg env.today excel opts
    if groups = [] then
      ({ success := false, message := ("No matching locales or people to generate".data) }, v.2)
    else
      let gen := generate_documents dest groups render opts
      let total_people := (groups.map (fun grp => grp.2.length)).sum
      ({ success := true, files_generated := gen.1,
         message := ("Generated ".data) ++ List.intercalate (", ".data) (get_enabled_templates opts) ++
           (" documents for ".data) ++ natToStr total_people ++
           (" people across ".data) ++ natToStr groups.length ++ (" locales".data) },
       v.2 ++ gen.2)

/-- Data of one occupation except its `is_active` flag (for the
active-independence analysis). -/
def occ_core (o : Occupation) : PyStr × PyStr × List PyStr × List OccupationPrenda × PyStr :=
  (o.name, o.display_name, o.synonyms, o.prendas, o.description)

/-- Two catalogs that differ at most in the `is_active` flags of their
occupations. -/
def same_except_active (c1 c2 : UnifiedConfig) : Prop :=
  c1.occupations.map occ_core = c2.occupations.map occ_core ∧
  c1.default_occupation = c2.default_occupation ∧
  c1.default_local_group = c2.default_local_group

/-! ## Concrete example data (used by witnesses and counterexamples) -/

/-- A small catalog: occupation MOZO (synonym MESERO) with a priced shirt. -/
def exCfg : UnifiedConfig :=
  { occupations :=
      [{ name := ("MOZO".data), display_name := ("Mozo".data),
         synonyms := [("MESERO".data)],
         prendas := [{ prenda_type := ("CAMISA".data),
                       price_sml_other := 10, price_xl_other := 12 }] }] }

/-- Occupation PACKER carrying the synonym PKR. -/
def exOccP : Occupation :=
  { name := ("PACKER".data), display_name := ("Packer".data),
    synonyms := [("PKR".data)],
    prendas := [{ prenda_type := ("PACKERGORRA".data), price_sml_other := 5 }] }

/-- A catalog with the single occupation PACKER. -/
def exCfgP : UnifiedConfig := { occupations := [exOccP] }

/-- `exCfg` with its only occupation marked inactive. -/
def exCfgInactive : UnifiedConfig :=
  { occupations :=
      [{ name := ("MOZO".data), display_name := ("Mozo".data),
         synonyms := [("MESERO".data)],
         prendas := [{ prenda_type := ("CAMISA".data),
                       price_sml_other := 10, price_xl_other := 12 }],
         is_active := false }] }

/-- A person row: cargo Mozo, name Ana, DNI 123, size M. -/
def exRow : Row :=
  [(("cargo".data), some ("Mozo".data)), (("nombre".data), some ("Ana".data)),
   (("DNI".data), some ("123".data)), (("talla".data), some ("M".data))]

/-- Ana's garment row: one shirt. -/
def exURow : Row := [(("camisa".data), some ("1".data)), (("blusa".data), none)]

/-- Sheet metadata with location Lima. -/
def exMeta : WorksheetMetadata := { sheet_name := ("S1".data), tienda := ("Lima".data) }

/-- A parsed worksheet holding Ana's row. -/
def exWs : WorksheetParsingResult :=
  { metadata := exMeta, data := some [exRow], uniform_data := some [exURow],
    people_parsed := 1 }

/-- Loaded Excel data with the one worksheet. -/
def exExcel : ExcelData := { worksheets := [exWs] }

/-- Options selecting Lima with both document kinds enabled. -/
def exOpts : GenerationOptions := { selected_locales := [("Lima".data)] }

/-- A benign environment with a fixed clock. -/
def exEnv : Env := { today := ⟨5, 1, 2026⟩ }

/-- An 18-column row of a raw grid, from an `Option String` list. -/
def mkGridRow (l : List (Option String)) : List Cell := l.map (fun o => o.map String.data)

/-- A raw worksheet grid with two person rows but only one garment row
(columns: A ignored, B..I main with headers at row 7, J..R garments from
row 8). -/
def exGridFewer : Grid :=
  [ mkGridRow [none,none,none,none,none,none,none,none,none,none,none,none,none,none,none,none,none,none],
    mkGridRow [none,none,none,none,none,none,none,none,none,none,none,none,none,none,none,none,none,none],
    mkGridRow [none,none,some "2024-01-05",none,none,none,none,none,none,none,none,none,none,none,none,none,none,none],
    mkGridRow [none,none,some "Lima",none,none,none,none,none,none,none,none,none,none,none,none,none,none,none],
    mkGridRow [none,none,some "Admin",none,none,none,none,none,none,none,none,none,none,none,none,none,none,none],
    mkGridRow [none,none,none,none,none,none,none,none,none,none,none,none,none,none,none,none,none,none],
    mkGridRow [none,some "cargo",some "nombre",some "DNI",some "talla",none,none,none,none,none,none,none,none,none,none,none,none,none],
    mkGridRow [none,some "Mozo",some "Ana",some "123",some "M",none,none,none,none,some "1",none,none,none,none,none,none,none,none],
    mkGridRow [none,some "Mozo",some "Bob",some "456",some "XL",none,none,none,none,none,none,none,none,none,none,none,none,none] ]

/-! ## Normalization lemmas -/

theorem Char.toUpper_toUpper (c : Char) : c.toUpper.toUpper = c.toUpper := by
  unfold Char.toUpper
  by_cases h : c.toNat ≥ 97 ∧ c.toNat ≤ 122
  · simp only [h, if_pos, and_self]
    have h1 : 97 ≤ c.toNat := h.1
    have h2 : c.toNat ≤ 122 := h.2
    set n := c.toNat with hn
    interval_cases n <;> decide
  · simp [h]

theorem pyIsSpace_toUpper (c : Char) : pyIsSpace c.toUpper = pyIsSpace c := by
  unfold Char.toUpper
  by_cases h : c.toNat ≥ 97 ∧ c.toNat ≤ 122
  · simp only [h, if_pos, and_self]
    have h1 : 97 ≤ c.toNat := h.1
    have h2 : c.toNat ≤ 122 := h.2
    have hrhs : pyIsSpace c = false := by
      simp only [pyIsSpace, Bool.or_eq_false_iff, decide_eq_false_iff_not]
      omega
    rw [hrhs]
    set n := c.toNat with hn
    interval_cases n <;> decide
  · simp [h]

theorem pyUpper_pyUpper (s : PyStr) : pyUpper (pyUpper s) = pyUpper s := by
  simp [pyUpper, List.map_map, Function.comp, Char.toUpper_toUpper]

theorem dropWhile_map_comm {α : Type} (f : α → α) (p : α → Bool)
    (hp : ∀ a, p (f a) = p a) (l : List α) :
    List.dropWhile p (l.map f) = (List.dropWhile p l).map f := by
  induction l with
  | nil => simp
  | cons a t ih =>
    simp only [List.map_cons, List.dropWhile_cons, hp a]
    by_cases h : p a = true
    · simp [h, ih]
    · simp [h]

theorem pyStrip_pyUpper_comm (s : PyStr) : pyStrip (pyUpper s) = pyUpper (pyStrip s) := by
  simp only [pyStrip, pyUpper]
  rw [dropWhile_map_comm Char.toUpper pyIsSpace pyIsSpace_toUpper]
  rw [← List.map_reverse, dropWhile_map_comm Char.toUpper pyIsSpace pyIsSpace_toUpper]
  rw [List.map_reverse]

theorem dropWhile_idem {α : Type} (p : α → Bool) (l : List α) :
    List.dropWhile p (List.dropWhile p l) = List.dropWhile p l := by
  induction l with
  | nil => simp
  | cons a t ih =>
    by_cases h : p a = true
    · simp [List.dropWhile_cons, h, ih]
    · simp [List.dropWhile_cons, h]

theorem head_dropWhile_false {α : Type} (p : α → Bool) (l : List α) (c : α) (t : List α)
    (h : List.dropWhile p l = c :: t) : p c = false := by
  induction l with
  | nil => simp at h
  | cons a as ih =>
    rw [List.dropWhile_cons] at h
    by_cases ha : p a = true
    · simp [ha] at h; exact ih h
    · simp [ha] at h
      simp [← h.1, Bool.eq_false_iff, ha]

theorem dropWhile_append_singleton {α : Type} (p : α → Bool) (xs : List α) (a : α)
    (ha : p a = false) : List.dropWhile p (xs ++ [a]) = List.dropWhile p xs ++ [a] := by
  induction xs with
  | nil => simp [List.dropWhile_cons, ha]
  | cons x t ih =>
    simp only [List.cons_append, List.dropWhile_cons]
    by_cases hx : p x = true
    · simp [hx, ih]
    · simp [hx]

theorem dropWhile_pyStrip (s : PyStr) :
    List.dropWhile pyIsSpace (pyStrip s) = pyStrip s := by
  rw [pyStrip]
  rcases hA : List.dropWhile pyIsSpace s with _ | ⟨a, as⟩
  · simp
  · have hpa : pyIsSpace a = false := head_dropWhile_false pyIsSpace s a as hA
    rw [List.reverse_cons, dropWhile_append_singleton pyIsSpace _ a hpa, List.reverse_append]
    simp [List.dropWhile_cons, hpa]

theorem pyStrip_pyStrip (s : PyStr) : pyStrip (pyStrip s) = pyStrip s := by
  conv_lhs => rw [pyStrip]
  rw [dropWhile_pyStrip]
  have h1 : (pyStrip s).reverse =
      List.dropWhile pyIsSpace ((List.dropWhile pyIsSpace s).reverse) := by
    rw [pyStrip, List.reverse_reverse]
  rw [h1, dropWhile_idem, ← h1, List.reverse_reverse]

theorem pyNormUp_pyNormUp (s : PyStr) : pyNormUp (pyNormUp s) = pyNormUp s := by
  show pyStrip (pyUpper (pyStrip (pyUpper s))) = pyStrip (pyUpper s)
  rw [← pyStrip_pyUpper_comm, pyUpper_pyUpper, pyStrip_pyStrip]

theorem get_occupation_pyNormUp (cfg : UnifiedConfig) (name : PyStr) :
    cfg.get_occupation (pyNormUp name) = cfg.get_occupation name := by
  simp only [UnifiedConfig.get_occupation, pyNormUp_pyNormUp]

/-- Auxiliary: `find?` returns a designated element when it is a member, it
satisfies the predicate, and it is the only member doing so. -/
theorem find?_eq_some_of_unique {α : Type} (p : α → Bool) (l : List α) (a : α)
    (ha : a ∈ l) (hpa : p a = true) (huniq : ∀ x ∈ l, p x = true → x = a) :
    l.find? p = some a := by
  induction l with
  | nil => cases ha
  | cons b t ih =>
    by_cases hb : p b = true
    · have hba : b = a := huniq b (List.mem_cons_self _ _) hb
      subst hba
      simp [List.find?_cons, hb]
    · have hat : a ∈ t := by
        rcases List.mem_cons.mp ha with h | h
        · exact absurd (h ▸ hpa) hb
        · exact h
      simp only [List.find?_cons_of_neg _ (by simpa using hb)]
      exact ih hat (fun x hx hpx => huniq x (List.mem_cons_of_mem _ hx) hpx)

/-- C2: For every catalog and every input (garment type, raw size, raw
occupation, raw location), `UnifiedConfig.get_price` is a total function
into the rationals (the embedding is a Lean function, mirroring that the
source never raises: the dynamic `getattr` carries a 0.0 default and every
other step is a lookup with an explicit fallback); if the raw occupation
resolves to no catalog occupation the result is 0.0, and if the resolved
occupation has no garment-pricing entry whose declared type matches the
garment type case-insensitively, the result is 0.0. -/
theorem get_price_zero_fallbacks (cfg : UnifiedConfig) (t s c l : PyStr) :
    (cfg.get_occupation c = none → cfg.get_price t s c l = 0) ∧
    (∀ occupation, cfg.get_occupation c = some occupation →
      (∀ p ∈ occupation.prendas, pyUpper p.prenda_type ≠ pyNormUp t) →
      cfg.get_price t s c l = 0) := by
  constructor
  · intro h
    simp only [UnifiedConfig.get_price, get_occupation_pyNormUp, h]
  · intro occupation hocc hnone
    have hfind : occupation.prendas.find?
        (fun prenda => pyUpper prenda.prenda_type == pyNormUp t) = none := by
      rw [List.find?_eq_none]
      intro x hx
      simpa using hnone x hx
    simp only [UnifiedConfig.get_price, get_occupation_pyNormUp, hocc, hfind]

/-- Witness for C2 at a concrete catalog and inputs. -/
theorem get_price_zero_fallbacks_witness :
    exCfg.get_price ("CAMISA".data) ("M".data) ("nobody".data) ("x".data) = 0 :=
  (get_price_zero_fallbacks exCfg ("CAMISA".data) ("M".data) ("nobody".data) ("x".data)).1
    (by decide)

/-- C6: For every catalog and raw occupation string, resolution succeeds
exactly when the upper-cased trimmed input equals some occupation's
upper-cased canonical name or one of its upper-cased synonyms (never a
partial or substring match); and, on a catalog where no other occupation
matches the synonym or the canonical name (the spec's uniqueness
invariants), a synonym resolves to exactly the occupation that its
canonical name resolves to. -/
theorem occupation_resolution_exact_and_synonym (cfg : UnifiedConfig) :
    (∀ name, (cfg.get_occupation name).isSome ↔
      ∃ occupation ∈ cfg.occupations,
        pyUpper occupation.name = pyNormUp name ∨
        pyNormUp name ∈ occupation.synonyms.map pyUpper) ∧
    (∀ occupation syn, occupation ∈ cfg.occupations →
      pyNormUp syn ∈ occupation.synonyms.map pyUpper →
      pyUpper occupation.name = pyNormUp occupation.name →
      (∀ o ∈ cfg.occupations, occ_matches o (pyNormUp syn) = true → o = occupation) →
      (∀ o ∈ cfg.occupations, occ_matches o (pyNormUp occupation.name) = true → o = occupation) →
      cfg.get_occupation syn = some occupation ∧
      cfg.get_occupation occupation.name = some occupation) := by
  constructor
  · intro name
    simp only [UnifiedConfig.get_occupation, List.find?_isSome, occ_matches,
      Bool.or_eq_true, beq_iff_eq, List.contains_iff_exists_mem_beq]
    constructor
    · rintro ⟨x, hx, h | h⟩
      · exact ⟨x, hx, Or.inl h⟩
      · obtain ⟨y, hy, hbeq⟩ := h
        exact ⟨x, hx, Or.inr (by rw [hbeq]; exact hy)⟩
    · rintro ⟨x, hx, h | h⟩
      · exact ⟨x, hx, Or.inl h⟩
      · exact ⟨x, hx, Or.inr ⟨pyNormUp name, h, rfl⟩⟩
  · intro occupation syn hmem hsyn hname huniq1 huniq2
    have hmatch1 : occ_matches occupation (pyNormUp syn) = true := by
      simp only [occ_matches, Bool.or_eq_true, beq_iff_eq, List.contains_iff_exists_mem_beq]
      exact Or.inr ⟨pyNormUp syn, hsyn, rfl⟩
    have hmatch2 : occ_matches occupation (pyNormUp occupation.name) = true := by
      simp only [occ_matches, Bool.or_eq_true, beq_iff_eq]
      exact Or.inl hname
    exact ⟨find?_eq_some_of_unique _ _ _ hmem hmatch1 huniq1,
           find?_eq_some_of_unique _ _ _ hmem hmatch2 huniq2⟩

/-- Witness for C6: in the PACKER catalog, "pkr" (a lower-case synonym
spelling) and "PACKER" resolve to the same occupation. -/
theorem occupation_resolution_exact_and_synonym_witness :
    exCfgP.get_occupation ("pkr".data) = exCfgP.get_occupation ("PACKER".data) ∧
    (exCfgP.get_occupation ("pkr".data)).isSome := by
  obtain ⟨h1, h2⟩ :=
    (occupation_resolution_exact_and_synonym exCfgP).2
      exOccP ("pkr".data)
      (by decide) (by decide) (by decide) (by decide) (by decide)
  exact ⟨by rw [h1, show ("PACKER".data) = exOccP.name from rfl, h2], by rw [h1]; rfl⟩

/-- Auxiliary: `get_price` depends on the raw size only through the size
group of its normalization. -/
theorem get_price_size_congr (cfg : UnifiedConfig) (t c l s1 s2 : PyStr)
    (h : size_group (pyNormUp s1) = size_group (pyNormUp s2)) :
    cfg.get_price t s1 c l = cfg.get_price t s2 c l := by
  simp only [UnifiedConfig.get_price, h]

/-- C8: For every garment type, occupation, location and catalog, the price
for a raw size normalizing to S, M or L equals the price for the SML size
group; the price for any raw size not recognized as one of
S, M, L, SML, XL, XXL also equals the SML-group price; and XL and XXL map
to their own size groups. -/
theorem size_sml_collapse_and_fallback (cfg : UnifiedConfig) (t c l s : PyStr) :
    (pyNormUp s = ("S".data) ∨ pyNormUp s = ("M".data) ∨ pyNormUp s = ("L".data) →
      cfg.get_price t s c l = cfg.get_price t ("SML".data) c l) ∧
    (pyNormUp s ∉ [("S".data), ("M".data), ("L".data), ("SML".data), ("XL".data), ("XXL".data)] →
      cfg.get_price t s c l = cfg.get_price t ("SML".data) c l) ∧
    size_group ("XL".data) = ("xl".data) ∧ size_group ("XXL".data) = ("xxl".data) := by
  refine ⟨?_, ?_, by decide, by decide⟩
  · intro h
    apply get_price_size_congr
    have hsml : pyNormUp ("SML".data) = ("SML".data) := by decide
    rcases h with h | h | h <;> rw [h, hsml] <;> decide
  · intro h
    simp only [List.mem_cons, List.not_mem_nil, or_false] at h
    push_neg at h
    apply get_price_size_congr
    have hsml : pyNormUp ("SML".data) = ("SML".data) := by decide
    rw [hsml]
    obtain ⟨h1, h2, h3, h4, h5, h6⟩ := h
    simp only [size_group, h1, h2, h3, h4, h5, h6, if_false, or_self, if_neg, not_false_iff]
    decide

/-- Witness for C8: lower-case "m" is priced as the SML group. -/
theorem size_sml_collapse_and_fallback_witness :
    exCfg.get_price ("CAMISA".data) ("m".data) ("MOZO".data) ("Lima".data) =
      exCfg.get_price ("CAMISA".data) ("SML".data) ("MOZO".data) ("Lima".data) :=
  (size_sml_collapse_and_fallback exCfg ("CAMISA".data) ("MOZO".data) ("Lima".data)
      ("m".data)).1 (by decide)

/-- Auxiliary: the occupation-matching test only reads `is_active`-free
data. -/
theorem occ_matches_core (o1 o2 : Occupation) (h : occ_core o1 = occ_core o2)
    (k : PyStr) : occ_matches o1 k = occ_matches o2 k := by
  simp only [occ_core, Prod.mk.injEq] at h
  simp only [occ_matches, h.1, h.2.2.1]

/-- Auxiliary: `find?` over two occupation lists equal up to `is_active`
produces results equal up to `is_active`. -/
theorem find?_occ_core (k : PyStr) :
    ∀ (l1 l2 : List Occupation), l1.map occ_core = l2.map occ_core →
      (l1.find? (fun o => occ_matches o k)).map occ_core =
      (l2.find? (fun o => occ_matches o k)).map occ_core := by
  intro l1
  induction l1 with
  | nil =>
    intro l2 h
    cases l2 with
    | nil => rfl
    | cons b t => simp at h
  | cons a t ih =>
    intro l2 h
    cases l2 with
    | nil => simp at h
    | cons b u =>
      simp only [List.map_cons, List.cons.injEq] at h
      have hm : occ_matches a k = occ_matches b k := occ_matches_core a b h.1 k
      by_cases hp : occ_matches a k = true
      · simp [List.find?_cons, hp, ← hm, h.1]
      · have hq : occ_matches b k = false := by rw [← hm]; simpa using hp
        have hpa : ¬ (fun o => occ_matches o k) a = true := by simpa using hp
        have hpb : ¬ (fun o => occ_matches o k) b = true := by simp [hq]
        rw [List.find?_cons_of_neg u hpb, List.find?_cons_of_neg t hpa]
        exact ih u h.2

/-- C10: Occupation resolution and pricing do not depend on the `is_active`
flag: for any two catalogs that differ only in the `is_active` values of
their occupations, every raw occupation string resolves to the same
occupation data (up to the flag itself, which the resolved value carries),
and every price is identical — an inactive occupation is still resolved and
still priced. -/
theorem resolution_and_pricing_ignore_is_active (c1 c2 : UnifiedConfig)
    (h : same_except_active c1 c2) :
    (∀ name, (c1.get_occupation name).map occ_core = (c2.get_occupation name).map occ_core) ∧
    (∀ t s c l, c1.get_price t s c l = c2.get_price t s c l) := by
  obtain ⟨hocc, hdef, hloc⟩ := h
  have hres : ∀ name, (c1.get_occupation name).map occ_core =
      (c2.get_occupation name).map occ_core := by
    intro name
    exact find?_occ_core (pyNormUp name) c1.occupations c2.occupations hocc
  refine ⟨hres, ?_⟩
  intro t s c l
  have h1 := hres (pyNormUp c)
  rcases ho1 : UnifiedConfig.get_occupation c1 (pyNormUp c) with _ | o1
  · rcases ho2 : UnifiedConfig.get_occupation c2 (pyNormUp c) with _ | o2
    · simp only [UnifiedConfig.get_price, ho1, ho2]
    · rw [ho1, ho2] at h1
      simp at h1
  · rcases ho2 : UnifiedConfig.get_occupation c2 (pyNormUp c) with _ | o2
    · rw [ho1, ho2] at h1
      simp at h1
    · rw [ho1, ho2] at h1
      simp only [Option.map_some', Option.some.injEq] at h1
      have hpr : o1.prendas = o2.prendas := by
        simp only [occ_core, Prod.mk.injEq] at h1
        exact h1.2.2.2.1
      simp only [UnifiedConfig.get_price, ho1, ho2, hpr]

/-- Witness for C10 at two concrete catalogs differing only in
`is_active`. -/
theorem resolution_and_pricing_ignore_is_active_witness :
    ((exCfg.get_occupation ("mesero".data)).map occ_core =
      (exCfgInactive.get_occupation ("mesero".data)).map occ_core) ∧
    exCfg.get_price ("CAMISA".data) ("M".data) ("MOZO".data) ("Lima".data) =
      exCfgInactive.get_price ("CAMISA".data) ("M".data) ("MOZO".data) ("Lima".data) := by
  obtain ⟨hres, hprice⟩ :=
    resolution_and_pricing_ignore_is_active exCfg exCfgInactive
      ⟨by rfl, rfl, rfl⟩
  exact ⟨hres ("mesero".data),
         hprice ("CAMISA".data) ("M".data) ("MOZO".data) ("Lima".data)⟩

/-- Auxiliary: what a produced garment entry looks like: it comes from a
key with parsed quantity > 0, its display string is built from the
prefix-stripped display name (size-suffixed unless one-size), and its
pricing key is the full upper-cased column key. -/
theorem prenda_entry_core_some (o : Option Int) (talla key : PyStr) (p : Prenda)
    (h : prenda_entry_core o talla key = some p) :
    ∃ q, o = some q ∧ 0 < q ∧
      p = { string := if ONE_SIZE_DISPLAY.contains (display_name_of (pyUpper key)) then
                        display_name_of (pyUpper key)
                      else display_name_of (pyUpper key) ++ (" TALLA ".data) ++ talla,
            qty := q, prenda_type := pyUpper key } := by
  cases o with
  | none => simp [prenda_entry_core] at h
  | some q =>
    rw [prenda_entry_core, Option.some_bind] at h
    by_cases hpos : 0 < q
    · rw [if_pos hpos] at h
      refine ⟨q, rfl, hpos, ?_⟩
      exact ((Option.some.injEq _ _).mp h).symm
    · rw [if_neg hpos] at h; simp at h

/-- Auxiliary: `prenda_entry_core_some` phrased for a row lookup. -/
theorem prenda_entry_some (row : Row) (talla key : PyStr) (p : Prenda)
    (h : prenda_entry row talla key = some p) :
    ∃ q, qtyParsed row key = some q ∧ 0 < q ∧
      p = { string := if ONE_SIZE_DISPLAY.contains (display_name_of (pyUpper key)) then
                        display_name_of (pyUpper key)
                      else display_name_of (pyUpper key) ++ (" TALLA ".data) ++ talla,
            qty := q, prenda_type := pyUpper key } :=
  prenda_entry_core_some (qtyParsed row key) talla key p h

/-- Auxiliary: the pricing key of a potential entry, as a function of the
positivity of the parsed quantity alone. -/
theorem prenda_entry_type (row : Row) (talla key : PyStr) :
    (prenda_entry row talla key).map Prenda.prenda_type =
      (if qty_positive row key then some (pyUpper key) else none) := by
  rw [prenda_entry, qty_positive]
  cases qtyParsed row key with
  | none => rfl
  | some q =>
    rw [prenda_entry_core, Option.some_bind, Option.map_some', Option.getD_some]
    by_cases hpos : 0 < q
    · simp [hpos]
    · simp [hpos]

/-- Auxiliary: `filterMap` through a boolean gate is determined by the
gate values. -/
theorem filterMap_if_congr {α β : Type} (f g : α → Bool) (v : α → Option β) :
    ∀ keys : List α, keys.map f = keys.map g →
      keys.filterMap (fun k => if f k then v k else none) =
      keys.filterMap (fun k => if g k then v k else none) := by
  intro keys
  induction keys with
  | nil => intro _; rfl
  | cons k ks ih =>
    intro h
    simp only [List.map_cons, List.cons.injEq] at h
    simp only [List.filterMap_cons, h.1]
    cases hg : g k <;> simp [ih h.2]

/-- Auxiliary: the list of pricing keys produced by the garment-list
builder. -/
theorem build_prendas_over_types (keys : List PyStr) (row : Row) (talla : PyStr) :
    (build_prendas_over keys row talla).map Prenda.prenda_type =
      keys.filterMap (fun k => if qty_positive row k then some (pyUpper k) else none) := by
  simp only [build_prendas_over, List.map_filterMap]
  congr 1
  funext k
  exact prenda_entry_type row talla k

/-- C1 (spec-modelled: the summation service `calculate_total_price` of the
missing `unified_config_service.py` is modelled from spec §4.4): For every
person row, the computed total amount equals the sum, over every garment
entry with quantity > 0, of the unit price looked up for (the entry's
pricing key, the person's size, the resolved occupation, the sheet
location); every entry of the garment list indeed carries quantity > 0; and
the quantity never multiplies the price — two garment rows whose parsed
quantities are positive in exactly the same columns yield the same amount,
whatever the quantities are. -/
theorem monto_is_sum_of_unit_prices (cfg : UnifiedConfig) (row : Row)
    (metadata : WorksheetMetadata) (uniform_row : Option Row) :
    get_monto_for_person cfg row metadata uniform_row =
      ((build_prendas_list (uniform_row.getD row) (extract_talla_superior row)).map
        (fun p => cfg.get_price p.prenda_type (extract_talla_superior row)
          (normalize_occupation cfg (pricing_cargo row)) (pricing_local metadata))).sum ∧
    (∀ p ∈ build_prendas_list (uniform_row.getD row) (extract_talla_superior row), 0 < p.qty) ∧
    (∀ u1 u2 : Row,
      UNIFORM_COLUMN_NAMES.map (qty_positive u1) = UNIFORM_COLUMN_NAMES.map (qty_positive u2) →
      get_monto_for_person cfg row metadata (some u1) =
        get_monto_for_person cfg row metadata (some u2)) := by
  refine ⟨rfl, ?_, ?_⟩
  · intro p hp
    obtain ⟨key, _, hkey⟩ := List.mem_filterMap.mp hp
    obtain ⟨q, _, hq, hpval⟩ := prenda_entry_some _ _ _ _ hkey
    rw [hpval]
    exact hq
  · intro u1 u2 hsame
    show calculate_total_price cfg _ _ _ _ = calculate_total_price cfg _ _ _ _
    simp only [calculate_total_price]
    have htypes : (build_prendas_list u1 (extract_talla_superior row)).map Prenda.prenda_type =
        (build_prendas_list u2 (extract_talla_superior row)).map Prenda.prenda_type := by
      simp only [build_prendas_list, build_prendas_over_types]
      exact filterMap_if_congr _ _ _ UNIFORM_COLUMN_NAMES hsame
    have hmaps :
        (build_prendas_list u1 (extract_talla_superior row)).map
          (fun p => cfg.get_price p.prenda_type (extract_talla_superior row)
            (normalize_occupation cfg (pricing_cargo row)) (pricing_local metadata)) =
        (build_prendas_list u2 (extract_talla_superior row)).map
          (fun p => cfg.get_price p.prenda_type (extract_talla_superior row)
            (normalize_occupation cfg (pricing_cargo row)) (pricing_local metadata)) := by
      have e1 := congrArg (List.map (fun ty => cfg.get_price ty (extract_talla_superior row)
        (normalize_occupation cfg (pricing_cargo row)) (pricing_local metadata))) htypes
      simpa only [List.map_map, Function.comp] using e1
    simp only [Option.getD_some]
    rw [hmaps]

/-- Witness for C1: quantity 3 of a shirt yields the same amount as
quantity 1. -/
theorem monto_is_sum_of_unit_prices_witness :
    get_monto_for_person exCfg exRow exMeta (some [(("camisa".data), some ("3".data))]) =
      get_monto_for_person exCfg exRow exMeta (some [(("camisa".data), some ("1".data))]) :=
  (monto_is_sum_of_unit_prices exCfg exRow exMeta
      (some [(("camisa".data), some ("3".data))])).2.2
    [(("camisa".data), some ("3".data))] [(("camisa".data), some ("1".data))] (by decide)

/-- C3 (amended): every garment entry built by `_build_prendas_list` comes
from a known garment-type key whose quantity parses to an integer > 0; its
display string is built from the prefix-stripped display name (PACKER and
DELIVERY never survive in the display of a known key), with a size suffix
unless the garment is one-size; but the key the entry carries for the
pricing lookup is the full upper-cased column key WITH the role prefix
(`prenda_type`, source comment "Keep original name for pricing"), not the
undecorated key. -/
theorem prendas_display_strips_prefix_pricing_keeps_key (row : Row) (talla : PyStr) :
    (∀ p ∈ build_prendas_list row talla,
      ∃ key ∈ UNIFORM_COLUMN_NAMES,
        (∃ q, qtyParsed row key = some q ∧ 0 < q ∧ p.qty = q) ∧
        p.prenda_type = pyUpper key ∧
        p.string = (if ONE_SIZE_DISPLAY.contains (display_name_of (pyUpper key)) then
                      display_name_of (pyUpper key)
                    else display_name_of (pyUpper key) ++ (" TALLA ".data) ++ talla)) ∧
    (∀ key ∈ UNIFORM_COLUMN_NAMES,
      ("PACKER".data).isPrefixOf (display_name_of (pyUpper key)) = false ∧
      ("DELIVERY".data).isPrefixOf (display_name_of (pyUpper key)) = false) := by
  constructor
  · intro p hp
    obtain ⟨key, hkey, hsome⟩ := List.mem_filterMap.mp hp
    obtain ⟨q, hq, hpos, hpval⟩ := prenda_entry_some _ _ _ _ hsome
    exact ⟨key, hkey, ⟨q, hq, hpos, by rw [hpval]⟩, by rw [hpval], by rw [hpval]⟩
  · decide

/-- Counterexample to C3 as stated: for the decorated key "packergorra"
the built entry's display string is the undecorated "GORRA" but the key it
carries for the pricing lookup is "PACKERGORRA" — the decorated key, not
the undecorated one, so display and pricing do NOT use the same key. -/
theorem prendas_pricing_key_counterexample :
    build_prendas_list [(("packergorra".data), some ("1".data))] ("M".data) =
      [{ string := ("GORRA".data), qty := 1, prenda_type := ("PACKERGORRA".data) }] ∧
    ("PACKERGORRA".data) ≠ ("GORRA".data) := by decide

/-- Witness for the amended C3 at a concrete row. -/
theorem prendas_display_strips_prefix_pricing_keeps_key_witness :
    ∃ key ∈ UNIFORM_COLUMN_NAMES,
      (∃ q, qtyParsed [(("packerpolo".data), some ("2".data))] key = some q ∧ 0 < q ∧
        ({ string := ("POLO TALLA M".data), qty := 2,
           prenda_type := ("PACKERPOLO".data) } : Prenda).qty = q) ∧
      ({ string := ("POLO TALLA M".data), qty := 2,
         prenda_type := ("PACKERPOLO".data) } : Prenda).prenda_type = pyUpper key ∧
      ({ string := ("POLO TALLA M".data), qty := 2,
         prenda_type := ("PACKERPOLO".data) } : Prenda).string =
        (if ONE_SIZE_DISPLAY.contains (display_name_of (pyUpper key)) then
           display_name_of (pyUpper key)
         else display_name_of (pyUpper key) ++ (" TALLA ".data) ++ ("M".data)) :=
  (prendas_display_strips_prefix_pricing_keeps_key
      [(("packerpolo".data), some ("2".data))] ("M".data)).1
    { string := ("POLO TALLA M".data), qty := 2, prenda_type := ("PACKERPOLO".data) }
    (by decide)

/-- C5: For every parsed worksheet whose garment region has the expected
column count (a grid with at least 8 rows and at least 18 columns), the
garment table of the parsing result never has more rows than the cleaned
person table: when the cleaned garment rows are at least as many as the
cleaned person rows, exactly the prefix of person-table length is kept (so
the counts are equal); when they are fewer, all garment rows are kept and a
warning string containing "fewer rows" is recorded. -/
theorem garment_table_never_exceeds_person_table (name : PyStr) (g : Grid)
    (h7 : 7 < g.length) (h17 : 17 < ncols g) :
    ∃ u, (parse_worksheet name g).uniform_data = some u ∧
      u.length ≤ (parse_worksheet name g).people_parsed ∧
      ((main_rows g).length ≤ (uniform_cleaned g).length →
        u = (uniform_cleaned g).take (main_rows g).length ∧
        u.length = (main_rows g).length) ∧
      ((uniform_cleaned g).length < (main_rows g).length →
        u = uniform_cleaned g ∧
        ∃ w ∈ (parse_worksheet name g).warnings,
          ∃ pre post, w = pre ++ ("fewer rows".data) ++ post) := by
  have h6 : 6 < g.length := by omega
  have hmr : 0 < (main_region g).length := by
    simp only [main_region, List.length_map, List.length_drop]
    omega
  have hu : 7 < g.length ∧ 17 < ncols g := ⟨h7, h17⟩
  have hucols : min 18 (ncols g) - 9 = UNIFORM_COLUMN_NAMES.length := by
    have h9 : UNIFORM_COLUMN_NAMES.length = 9 := by decide
    rw [h9]
    omega
  simp only [parse_worksheet, if_pos h6, if_pos hmr, if_pos hu, if_pos hucols]
  by_cases hc : (main_rows g).length ≤ (uniform_cleaned g).length
  · rw [if_pos hc]
    refine ⟨(uniform_cleaned g).take (main_rows g).length, rfl, ?_, ?_, ?_⟩
    · simp [List.length_take]
    · intro _
      exact ⟨rfl, by simp [List.length_take]; omega⟩
    · intro hlt
      omega
  · rw [if_neg hc]
    refine ⟨uniform_cleaned g, rfl, ?_, ?_, ?_⟩
    · omega
    · intro hle
      omega
    · intro _
      refine ⟨rfl,
        ("Uniform data has fewer rows (".data) ++ natToStr (uniform_cleaned g).length ++
          (") than main data (".data) ++ natToStr (main_rows g).length ++ (")".data), ?_,
        ("Uniform data has ".data),
        (" (".data) ++ natToStr (uniform_cleaned g).length ++
          (") than main data (".data) ++ natToStr (main_rows g).length ++ (")".data), ?_⟩
      · simp
      · have hsplit : ("Uniform data has fewer rows (".data : PyStr) =
            ("Uniform data has ".data) ++ ("fewer rows".data) ++ (" (".data) := by decide
        rw [hsplit]
        simp [List.append_assoc]

/-- Witness for C5 at the concrete grid with fewer garment rows than
person rows. -/
theorem garment_table_never_exceeds_person_table_witness :
    ∃ u, (parse_worksheet ("S1".data) exGridFewer).uniform_data = some u ∧
      u.length ≤ (parse_worksheet ("S1".data) exGridFewer).people_parsed ∧
      ((main_rows exGridFewer).length ≤ (uniform_cleaned exGridFewer).length →
        u = (uniform_cleaned exGridFewer).take (main_rows exGridFewer).length ∧
        u.length = (main_rows exGridFewer).length) ∧
      ((uniform_cleaned exGridFewer).length < (main_rows exGridFewer).length →
        u = uniform_cleaned exGridFewer ∧
        ∃ w ∈ (parse_worksheet ("S1".data) exGridFewer).warnings,
          ∃ pre post, w = pre ++ ("fewer rows".data) ++ post) :=
  garment_table_never_exceeds_person_table ("S1".data) exGridFewer (by decide) (by decide)

/-- C7 (amended): for every generation request whose data is loaded, whose
templates validate, and whose destination is creatable, but in which no
document kind is enabled, `generate_files` returns a failed result whose
message indicates that no templates were selected, with zero files
generated — but NOT free of side effects: the destination root directory
has been created (during input validation, before the enabled-kind check),
and that directory creation is the only file-system effect. -/
theorem no_templates_fails_after_dest_mkdir (env : Env) (cfg : UnifiedConfig)
    (excel : ExcelData) (dest : PyStr) (opts : GenerationOptions) (render : Renderer)
    (h1 : excel.is_loaded = true) (h2 : env.template_errors = [])
    (h3 : env.dest_creatable = true)
    (h4 : opts.autorizacion_enabled = false) (h5 : opts.cargo_enabled = false) :
    (generate_files env cfg excel dest (some opts) render).1.success = false ∧
    (generate_files env cfg excel dest (some opts) render).1.message =
      ("No templates selected for generation".data) ∧
    (generate_files env cfg excel dest (some opts) render).1.files_generated = 0 ∧
    (generate_files env cfg excel dest (some opts) render).2 = [FSOp.mkdir [dest]] := by
  have hv : validate_generation_inputs env excel dest (some opts) =
      ({ success := false, message := ("No templates selected for generation".data) },
       [FSOp.mkdir [dest]]) := by
    simp [validate_generation_inputs, h1, h2, h3, h4, h5]
  simp [generate_files, hv]

/-- Counterexample to C7 as stated: with both document kinds disabled the
run does report failure with the no-templates message and zero files, but
its file-system trace is NOT empty — the destination root directory is
created before returning. -/
theorem no_templates_counterexample :
    (generate_files exEnv exCfg exExcel ("output".data)
        (some { selected_locales := [("Lima".data)], combine_per_local := false,
                cargo_enabled := false, autorizacion_enabled := false })
        (fun _ _ => true)).2 = [FSOp.mkdir [("output".data)]] ∧
    (generate_files exEnv exCfg exExcel ("output".data)
        (some { selected_locales := [("Lima".data)], combine_per_local := false,
                cargo_enabled := false, autorizacion_enabled := false })
        (fun _ _ => true)).2 ≠ ([] : List FSOp) ∧
    (generate_files exEnv exCfg exExcel ("output".data)
        (some { selected_locales := [("Lima".data)], combine_per_local := false,
                cargo_enabled := false, autorizacion_enabled := false })
        (fun _ _ => true)).1.success = false := by decide

/-- Witness for the amended C7 at concrete inputs. -/
theorem no_templates_fails_after_dest_mkdir_witness :
    (generate_files exEnv exCfg exExcel ("out".data)
        (some { selected_locales := [("Lima".data)], combine_per_local := false,
                cargo_enabled := false, autorizacion_enabled := false })
        (fun _ _ => false)).1.success = false ∧
    (generate_files exEnv exCfg exExcel ("out".data)
        (some { selected_locales := [("Lima".data)], combine_per_local := false,
                cargo_enabled := false, autorizacion_enabled := false })
        (fun _ _ => false)).1.message = ("No templates selected for generation".data) ∧
    (generate_files exEnv exCfg exExcel ("out".data)
        (some { selected_locales := [("Lima".data)], combine_per_local := false,
                cargo_enabled := false, autorizacion_enabled := false })
        (fun _ _ => false)).1.files_generated = 0 ∧
    (generate_files exEnv exCfg exExcel ("out".data)
        (some { selected_locales := [("Lima".data)], combine_per_local := false,
                cargo_enabled := false, autorizacion_enabled := false })
        (fun _ _ => false)).2 = [FSOp.mkdir [("out".data)]] :=
  no_templates_fails_after_dest_mkdir exEnv exCfg exExcel ("out".data)
    { selected_locales := [("Lima".data)], combine_per_local := false,
      cargo_enabled := false, autorizacion_enabled := false }
    (fun _ _ => false) (by decide) (by decide) (by decide) (by decide) (by decide)

/-- Auxiliary: a renderer that always fails produces no document path. -/
theorem generate_single_document_none (ctx : DocCtx) (folder : List PyStr) :
    generate_single_document (fun _ _ => false) ctx folder = none := by
  cases ctx <;> rfl

/-- Auxiliary: with an always-failing renderer, processing a person leaves
the file count and the per-template document lists untouched. -/
theorem process_person_all_fail (tf : List PyStr) (st : GenState) (pc : PersonContexts) :
    (process_person (fun _ _ => false) tf st pc).files = st.files ∧
    (process_person (fun _ _ => false) tf st pc).template_docs = st.template_docs := by
  unfold process_person
  by_cases h : extract_person_name pc = []
  · rw [if_pos h]
    exact ⟨rfl, rfl⟩
  · rw [if_neg h]
    cases pc.autorizacion <;> cases pc.cargo <;>
      simp [generate_single_document_none]

/-- Auxiliary: the person fold with an always-failing renderer. -/
theorem foldl_process_person_all_fail (tf : List PyStr) (people : List PersonContexts) :
    ∀ st : GenState,
      (people.foldl (process_person (fun _ _ => false) tf) st).files = st.files ∧
      (people.foldl (process_person (fun _ _ => false) tf) st).template_docs =
        st.template_docs := by
  induction people with
  | nil => intro st; exact ⟨rfl, rfl⟩
  | cons p ps ih =>
    intro st
    simp only [List.foldl_cons]
    obtain ⟨h1, h2⟩ := ih (process_person (fun _ _ => false) tf st p)
    obtain ⟨g1, g2⟩ := process_person_all_fail tf st p
    exact ⟨by rw [h1, g1], by rw [h2, g2]⟩

/-- Auxiliary: one locale with an always-failing renderer contributes no
files. -/
theorem generate_group_step_all_fail (dest : PyStr) (opts : GenerationOptions)
    (acc : Nat × List FSOp) (grp : PyStr × List PersonContexts) :
    (generate_group_step dest (fun _ _ => false) opts acc grp).1 = acc.1 := by
  unfold generate_group_step
  obtain ⟨hf, ht⟩ := foldl_process_person_all_fail [dest, sanitize_name grp.1] grp.2
    { files := acc.1, ops := acc.2 ++ [FSOp.mkdir [dest, sanitize_name grp.1]],
      template_docs := [] }
  by_cases hc : opts.combine_per_local
  · rw [if_pos hc]
    simp only [hf, ht]
    rfl
  · rw [if_neg hc]
    simpa using hf

/-- Auxiliary: all locales with an always-failing renderer contribute no
files. -/
theorem generate_documents_all_fail (dest : PyStr) (opts : GenerationOptions)
    (groups : List (PyStr × List PersonContexts)) :
    (generate_documents dest groups (fun _ _ => false) opts).1 = 0 := by
  suffices h : ∀ acc : Nat × List FSOp,
      (groups.foldl (generate_group_step dest (fun _ _ => false) opts) acc).1 = acc.1 by
    exact h (0, [])
  induction groups with
  | nil => intro acc; rfl
  | cons grp gs ih =>
    intro acc
    simp only [List.foldl_cons]
    rw [ih (generate_group_step dest (fun _ _ => false) opts acc grp),
      generate_group_step_all_fail]

/-- C4 (amended): the validation step succeeds exactly when its
precondition checks pass (data loaded, template validation clean,
destination creatable, at least one document kind enabled whenever explicit
options are given, rendering library available); the run's success flag is
true iff validation passes AND the locale grouping yields at least one
person — a run whose preconditions pass but which matches no selected
locale or no person returns success = false; and per-person rendering
failures do not flip success: with preconditions passing and a non-empty
grouping, a renderer that fails on every document still yields
success = true with a file count of zero. -/
theorem generate_success_iff_valid_and_nonempty_grouping (env : Env) (cfg : UnifiedConfig)
    (excel : ExcelData) (dest : PyStr) (options : Option GenerationOptions)
    (render : Renderer) :
    ((validate_generation_inputs env excel dest options).1.success = true ↔
      (excel.is_loaded = true ∧ env.template_errors = [] ∧ env.dest_creatable = true ∧
       (∀ o, options = some o → (o.autorizacion_enabled = true ∨ o.cargo_enabled = true)) ∧
       env.docxtpl_available = true)) ∧
    ((generate_files env cfg excel dest options render).1.success = true ↔
      ((validate_generation_inputs env excel dest options).1.success = true ∧
       group_data_by_locale cfg env.today excel
         (options.getD (create_default_options excel)) ≠ [])) ∧
    (((validate_generation_inputs env excel dest options).1.success = true ∧
      group_data_by_locale cfg env.today excel
        (options.getD (create_default_options excel)) ≠ []) →
      ((generate_files env cfg excel dest options (fun _ _ => false)).1.success = true ∧
       (generate_files env cfg excel dest options (fun _ _ => false)).1.files_generated = 0)) := by
  have hvalid : (validate_generation_inputs env excel dest options).1.success = true ↔
      (excel.is_loaded = true ∧ env.template_errors = [] ∧ env.dest_creatable = true ∧
       (∀ o, options = some o → (o.autorizacion_enabled = true ∨ o.cargo_enabled = true)) ∧
       env.docxtpl_available = true) := by
    cases hl : excel.is_loaded
    · simp [validate_generation_inputs, hl]
    · by_cases he : env.template_errors = []
      · cases hd : env.dest_creatable
        · simp [validate_generation_inputs, hl, he, hd]
        · cases options with
          | none =>
            cases ha : env.docxtpl_available <;>
              simp [validate_generation_inputs, hl, he, hd, ha]
          | some o =>
            by_cases hk : o.autorizacion_enabled = true ∨ o.cargo_enabled = true
            · have hcond : ¬(o.autorizacion_enabled = false ∧ o.cargo_enabled = false) := by
                rcases hk with h | h <;> simp [h]
              cases ha : env.docxtpl_available
              · simp [validate_generation_inputs, hl, he, hd, ha, hcond]
              · simp [validate_generation_inputs, hl, he, hd, ha, hcond]
                tauto
            · have hk' : (o.autorizacion_enabled || o.cargo_enabled) = false := by
                rcases Bool.eq_false_or_eq_true o.autorizacion_enabled with h1 | h1 <;>
                  rcases Bool.eq_false_or_eq_true o.cargo_enabled with h2 | h2 <;>
                  simp [h1, h2] at hk ⊢
              simp [validate_generation_inputs, hl, he, hd, hk', hk]
      · simp [validate_generation_inputs, hl, he]
  refine ⟨hvalid, ?_, ?_⟩
  · cases hv : (validate_generation_inputs env excel dest options).1.success
    · simp [generate_files, hv]
    · by_cases hg : group_data_by_locale cfg env.today excel
          (options.getD (create_default_options excel)) = []
      · simp [generate_files, hv, hg]
      · simp [generate_files, hv, hg]
  · rintro ⟨hv, hg⟩
    constructor
    · simp [generate_files, hv, hg]
    · simp [generate_files, hv, hg, generate_documents_all_fail]

/-- Counterexample to C4 as stated: a run whose four precondition checks
all pass (data loaded, templates valid, destination creatable, a document
kind enabled) but whose selected-locale list matches no sheet returns
success = false, so success is not equivalent to the precondition checks
alone. -/
theorem generate_success_not_iff_preconditions_counterexample :
    (validate_generation_inputs exEnv exExcel ("output".data)
        (some { selected_locales := ([] : List PyStr) })).1.success = true ∧
    exExcel.is_loaded = true ∧
    (generate_files exEnv exCfg exExcel ("output".data)
        (some { selected_locales := ([] : List PyStr) })
        (fun _ _ => true)).1.success = false := by decide

/-- Witness for the amended C4: preconditions pass, grouping non-empty,
every render fails — success still true with zero files. -/
theorem generate_success_iff_valid_and_nonempty_grouping_witness :
    (generate_files exEnv exCfg exExcel ("output".data) (some exOpts)
        (fun _ _ => false)).1.success = true ∧
    (generate_files exEnv exCfg exExcel ("output".data) (some exOpts)
        (fun _ _ => false)).1.files_generated = 0 :=
  (generate_success_iff_valid_and_nonempty_grouping exEnv exCfg exExcel ("output".data)
      (some exOpts) (fun _ _ => false)).2.2 ⟨by decide, by decide⟩

/-- Auxiliary: the file stub of a CARGO context is the sanitized stripped
name alone — the CARGO context has no "cargo" key to contribute. -/
theorem file_stub_car (c : CargoCtx) :
    file_stub (.car c) = sanitize_name (pyStrip c.nombre) := by
  unfold file_stub ctx_nombre ctx_cargo
  by_cases h : pyStrip c.nombre = []
  · rw [h]
    rfl
  · have h0 : pyStrip ([] : PyStr) = [] := rfl
    rw [h0]
    congr 1
    simp [h, List.intercalate, List.intersperse]

/-- Auxiliary: the file stub of an AUTORIZACION context with non-empty
name and cargo is the sanitized underscore join. -/
theorem file_stub_aut (a : AutorizacionCtx) (h1 : pyStrip a.nombre ≠ [])
    (h2 : pyStrip a.cargo ≠ []) :
    file_stub (.aut a) = sanitize_name (pyStrip a.nombre ++ ("_".data) ++ pyStrip a.cargo) := by
  unfold file_stub ctx_nombre ctx_cargo
  congr 1
  simp [h1, h2, List.intercalate, List.intersperse, List.append_assoc]

/-- C9 (amended): for a person with both contexts built and a derivable
name, under a succeeding renderer the individually rendered files land in
`destination_root/<sanitized tienda>/<sanitized person name>/`; the
AUTORIZACION file is named `AUTORIZACION_<sanitized "nombre_cargo" join>`
(which is `<sanitized person>_<sanitized occupation>` when both are
non-empty and sanitization-clean), but the CARGO file is named
`CARGO_<sanitized person>` WITHOUT the occupation, because the CARGO
context carries no "cargo" key. -/
theorem output_paths_cargo_lacks_occupation (dest tienda : PyStr) (pc : PersonContexts)
    (a : AutorizacionCtx) (c : CargoCtx)
    (ha : pc.autorizacion = some a) (hc : pc.cargo = some c)
    (hname : extract_person_name pc ≠ []) (opts : GenerationOptions)
    (hcomb : opts.combine_per_local = false) (render : Renderer)
    (hra : render ("AUTORIZACION".data) (.aut a) = true)
    (hrc : render ("CARGO".data) (.car c) = true) :
    (generate_documents dest [(tienda, [pc])] render opts).2 =
      [FSOp.mkdir [dest, sanitize_name tienda],
       FSOp.mkdir [dest, sanitize_name tienda, sanitize_name (extract_person_name pc)],
       FSOp.write [dest, sanitize_name tienda, sanitize_name (extract_person_name pc),
         ("AUTORIZACION_".data) ++ file_stub (.aut a) ++ (".docx".data)],
       FSOp.write [dest, sanitize_name tienda, sanitize_name (extract_person_name pc),
         ("CARGO_".data) ++ sanitize_name (pyStrip c.nombre) ++ (".docx".data)]] ∧
    (pyStrip a.nombre ≠ [] → pyStrip a.cargo ≠ [] →
      file_stub (.aut a) =
        sanitize_name (pyStrip a.nombre ++ ("_".data) ++ pyStrip a.cargo)) := by
  refine ⟨?_, fun h1 h2 => file_stub_aut a h1 h2⟩
  simp only [generate_documents, List.foldl_cons, List.foldl_nil, generate_group_step,
    process_person, hname, if_neg hname, ha, hc, generate_single_document, hra, hrc,
    if_pos, hcomb, if_neg, file_stub_car]
  simp [List.append_assoc]

/-- Counterexample to C9 as stated: Ana's occupation is "Mozo" (it appears
in the AUTORIZACION file name), yet the rendered CARGO file is written as
`CARGO_Ana.docx`, not `CARGO_Ana_Mozo.docx` — the file name of the CARGO
kind does not contain the sanitized occupation. -/
theorem output_paths_counterexample :
    FSOp.write [("output".data), ("Lima".data), ("Ana".data), ("CARGO_Ana.docx".data)] ∈
      (generate_files exEnv exCfg exExcel ("output".data) (some exOpts)
        (fun _ _ => true)).2 ∧
    FSOp.write [("output".data), ("Lima".data), ("Ana".data), ("AUTORIZACION_Ana_Mozo.docx".data)] ∈
      (generate_files exEnv exCfg exExcel ("output".data) (some exOpts)
        (fun _ _ => true)).2 ∧
    FSOp.write [("output".data), ("Lima".data), ("Ana".data), ("CARGO_Ana_Mozo.docx".data)] ∉
      (generate_files exEnv exCfg exExcel ("output".data) (some exOpts)
        (fun _ _ => true)).2 ∧
    (extract_common_person_data exRow).cargo = ("Mozo".data) := by decide

/-- Witness for the amended C9 at a concrete person. -/
theorem output_paths_cargo_lacks_occupation_witness :
    (generate_documents ("o".data)
        [(("L".data),
          [({ autorizacion := some ⟨[], [], [], [], [], ("Mozo".data), ("Ana".data), [], 0⟩,
              cargo := some ⟨[], [], [], [], ("Ana".data), [], 0⟩ } : PersonContexts)])]
        (fun _ _ => true) exOpts).2 =
      [FSOp.mkdir [("o".data), sanitize_name ("L".data)],
       FSOp.mkdir [("o".data), sanitize_name ("L".data),
         sanitize_name (extract_person_name
           ({ autorizacion := some ⟨[], [], [], [], [], ("Mozo".data), ("Ana".data), [], 0⟩,
              cargo := some ⟨[], [], [], [], ("Ana".data), [], 0⟩ } : PersonContexts))],
       FSOp.write [("o".data), sanitize_name ("L".data),
         sanitize_name (extract_person_name
           ({ autorizacion := some ⟨[], [], [], [], [], ("Mozo".data), ("Ana".data), [], 0⟩,
              cargo := some ⟨[], [], [], [], ("Ana".data), [], 0⟩ } : PersonContexts)),
         ("AUTORIZACION_".data) ++
           file_stub (.aut ⟨[], [], [], [], [], ("Mozo".data), ("Ana".data), [], 0⟩) ++
           (".docx".data)],
       FSOp.write [("o".data), sanitize_name ("L".data),
         sanitize_name (extract_person_name
           ({ autorizacion := some ⟨[], [], [], [], [], ("Mozo".data), ("Ana".data), [], 0⟩,
              cargo := some ⟨[], [], [], [], ("Ana".data), [], 0⟩ } : PersonContexts)),
         ("CARGO_".data) ++
           sanitize_name (pyStrip (CargoCtx.nombre ⟨[], [], [], [], ("Ana".data), [], 0⟩)) ++
           (".docx".data)]] ∧
    (pyStrip (AutorizacionCtx.nombre ⟨[], [], [], [], [], ("Mozo".data), ("Ana".data), [], 0⟩) ≠ [] →
      pyStrip (AutorizacionCtx.cargo ⟨[], [], [], [], [], ("Mozo".data), ("Ana".data), [], 0⟩) ≠ [] →
      file_stub (.aut ⟨[], [], [], [], [], ("Mozo".data), ("Ana".data), [], 0⟩) =
        sanitize_name
          (pyStrip (AutorizacionCtx.nombre ⟨[], [], [], [], [], ("Mozo".data), ("Ana".data), [], 0⟩) ++
            ("_".data) ++
            pyStrip (AutorizacionCtx.cargo ⟨[], [], [], [], [], ("Mozo".data), ("Ana".data), [], 0⟩))) :=
  output_paths_cargo_lacks_occupation ("o".data) ("L".data)
    { autorizacion := some ⟨[], [], [], [], [], ("Mozo".data), ("Ana".data), [], 0⟩,
      cargo := some ⟨[], [], [], [], ("Ana".data), [], 0⟩ }
    ⟨[], [], [], [], [], ("Mozo".data), ("Ana".data), [], 0⟩
    ⟨[], [], [], [], ("Ana".data), [], 0⟩
    rfl rfl (by decide) exOpts rfl (fun _ _ => true) rfl rfl
